import Mathlib

/-!
Verification of the two calculation functions and the currency formatting of
`src/app.py` (Simulador de Custo de Viagem).

The Python code works on floats; here the arithmetic is modelled over `ℚ`
(exact real-number semantics, the reading the specification itself uses:
"real-number (floating) division throughout").  Python string formatting
`f"{v:,.2f}"` rounds to two decimals (ties to even) and inserts thousands
separators; it is modelled by `pyFormatComma2` below, and the `str.replace`
calls that turn the US format into the Brazilian one are modelled per
character.
-/

/-- One decimal digit `d < 10` rendered as the character '0'..'9'. -/
def digitChar (d : ℕ) : Char := Char.ofNat ('0'.toNat + d)

/-- Numeric value of a digit character. -/
def digitVal (c : Char) : ℕ := c.toNat - '0'.toNat

/-- Little-endian base-10 digits, computed with explicit fuel so that it is
structurally recursive (the first argument is the fuel). -/
def natDigitsRevAux : ℕ → ℕ → List ℕ
  | _, 0 => []
  | 0, _ + 1 => []
  | fuel + 1, n + 1 => ((n + 1) % 10) :: natDigitsRevAux fuel ((n + 1) / 10)

/-- Little-endian base-10 digits of `n` (empty for 0). -/
def natDigitsRev (n : ℕ) : List ℕ := natDigitsRevAux n n

/-- Big-endian decimal digit characters of `n`, "0" for zero — the digits
Python's fixed-point formatting prints for an integer part. -/
def natChars (n : ℕ) : List Char :=
  if n = 0 then ['0'] else ((natDigitsRev n).map digitChar).reverse

/-- Insert a ',' after every three characters of a little-endian digit list,
as long as more digits follow: the thousands grouping of Python's `,` format
specifier, seen from the right. -/
def group3Rev : List Char → List Char
  | a :: b :: c :: d :: rest => a :: b :: c :: ',' :: group3Rev (d :: rest)
  | l => l

/-- `n` with ',' thousands separators, as Python `format(n, ",d")` prints. -/
def natCharsGrouped (n : ℕ) : List Char := (group3Rev (natChars n).reverse).reverse

/-- Round to the nearest integer, ties to even — the rounding of Python's
fixed-point float formatting. -/
def roundHalfEven (x : ℚ) : ℤ :=
  if Int.fract x < 1 / 2 then ⌊x⌋
  else if 1 / 2 < Int.fract x then ⌊x⌋ + 1
  else if 2 ∣ ⌊x⌋ then ⌊x⌋ else ⌊x⌋ + 1

/-- Python `format(v, ",.2f")`: optional sign, thousands-grouped integer part,
'.', and exactly two rounded decimal digits. -/
def pyFormatComma2 (v : ℚ) : String :=
  let cents := (roundHalfEven (100 * v)).natAbs
  String.mk ((if v < 0 then ['-'] else []) ++ natCharsGrouped (cents / 100) ++
    '.' :: [digitChar (cents % 100 / 10), digitChar (cents % 10)])

/-- Python `format(v, ".0f")`: optional sign and the rounded integer digits,
no grouping, no decimal point (used for the reserve-percent label). -/
def pyFormat0 (v : ℚ) : String :=
  String.mk ((if v < 0 then ['-'] else []) ++ natChars (roundHalfEven v).natAbs)

/-- Python `str.replace` for a one-character pattern and a one-character
replacement: replaces every occurrence. -/
def pyReplaceChar (a b : Char) (s : String) : String :=
  String.mk (s.data.map fun c => if c = a then b else c)

/-- Python `str.replace` of a one-character pattern with the empty string:
deletes every occurrence of the character. -/
def pyRemoveChar (a : Char) (s : String) : String :=
  String.mk (s.data.filter fun c => c ≠ a)

/-- Python `"...".replace("R$ ", "")`: deletes every (left-to-right,
non-overlapping) occurrence of the three characters 'R', '$', ' '. -/
def removeRSList : List Char → List Char
  | 'R' :: '$' :: ' ' :: rest => removeRSList rest
  | c :: rest => c :: removeRSList rest
  | [] => []

/-- String wrapper of `removeRSList`. -/
def pyRemoveRS (s : String) : String := String.mk (removeRSList s.data)

/-- Python `str.upper`, modelled on the ASCII letters (the only case change
`Char.toUpper` performs; the repository's default destination "Paris" is
ASCII). -/
def pyUpper (s : String) : String := String.mk (s.data.map Char.toUpper)

/-- Accumulator-style decimal reading of a digit-character list. -/
def parseNatAux (acc : ℕ) : List Char → ℕ
  | [] => acc
  | c :: cs => parseNatAux (10 * acc + digitVal c) cs

/-- Python `float` on an unsigned body: digits, optionally followed by a
single '.' and further digits.  Modelled for exactly those shapes (the only
ones the UI's parse in src/app.py lines 179-183 ever sees); anything else is
rejected, as `float` raises. -/
def pyFloatChars? (l : List Char) : Option ℚ :=
  let intPart := l.takeWhile Char.isDigit
  let rest := l.dropWhile Char.isDigit
  match rest with
  | [] => if intPart.isEmpty then none else some ((parseNatAux 0 intPart : ℕ) : ℚ)
  | '.' :: frac =>
    if frac.all Char.isDigit && !(intPart.isEmpty && frac.isEmpty) then
      some (((parseNatAux 0 intPart : ℕ) : ℚ) + ((parseNatAux 0 frac : ℕ) : ℚ) / 10 ^ frac.length)
    else none
  | _ => none

/-- Python `float` on a possibly minus-signed decimal string. -/
def pyFloat? (s : String) : Option ℚ :=
  match s.data with
  | '-' :: rest => (pyFloatChars? rest).map fun q => -q
  | l => pyFloatChars? l

/-- src/app.py lines 9-12, `formatar_moeda`: Python renders the value with
`f"R$ {v:,.2f}"` and then three `replace` calls swap the ',' and '.'
separators into the Brazilian convention. -/
def formatar_moeda (valor : ℚ) : String :=
  pyReplaceChar 'X' '.' (pyReplaceChar '.' ',' (pyReplaceChar ',' 'X'
    ("R$ " ++ pyFormatComma2 valor)))

/-- src/app.py lines 14-17, `formatar_numero`: Brazilian number formatting
plus a suffix (the code always passes " L"). -/
def formatar_numero (valor : ℚ) (sufixo : String) : String :=
  pyReplaceChar 'X' '.' (pyReplaceChar '.' ',' (pyReplaceChar ',' 'X'
    (pyFormatComma2 valor))) ++ sufixo

/-- The dict returned by `calcular_combustivel` (src/app.py lines 37-44):
the cost and litre fields are display-formatted strings. -/
structure ResultadoCombustivel where
  distancia_total : ℚ
  litros_necessarios : String
  preco_combustivel : String
  custo_total_combustivel : String
  custo_por_pessoa_combustivel : String
  num_viajantes : ℚ

/-- src/app.py lines 23-44, `calcular_combustivel`. -/
def calcular_combustivel (distancia_total consumo_km_litro preco_combustivel
    num_viajantes : ℚ) : Option ResultadoCombustivel :=
  if distancia_total ≤ 0 ∨ consumo_km_litro ≤ 0 ∨ preco_combustivel ≤ 0 ∨
      num_viajantes ≤ 0 then
    none
  else
    let litros_necessarios := distancia_total / consumo_km_litro
    let custo_total := litros_necessarios * preco_combustivel
    let custo_por_pessoa := custo_total / num_viajantes
    some
      { distancia_total := distancia_total
        litros_necessarios := formatar_numero litros_necessarios " L"
        preco_combustivel := formatar_moeda preco_combustivel
        custo_total_combustivel := formatar_moeda custo_total
        custo_por_pessoa_combustivel := formatar_moeda custo_por_pessoa
        num_viajantes := num_viajantes }

/-- The numeric values `calcular_combustivel` computes (src/app.py lines
26-34), before the returned dict formats them for display. -/
structure ValoresCombustivel where
  litros_necessarios : ℚ
  custo_total : ℚ
  custo_por_pessoa : ℚ

/-- src/app.py lines 26-34: the validation and the numeric computation of
`calcular_combustivel`, exposing the unformatted values. -/
def calcular_combustivel_valores (distancia_total consumo_km_litro
    preco_combustivel num_viajantes : ℚ) : Option ValoresCombustivel :=
  if distancia_total ≤ 0 ∨ consumo_km_litro ≤ 0 ∨ preco_combustivel ≤ 0 ∨
      num_viajantes ≤ 0 then
    none
  else
    let litros_necessarios := distancia_total / consumo_km_litro
    let custo_total := litros_necessarios * preco_combustivel
    let custo_por_pessoa := custo_total / num_viajantes
    some ⟨litros_necessarios, custo_total, custo_por_pessoa⟩

/-- The dict returned by `calcular_custos_completos` (src/app.py lines
80-94): every money field is a display-formatted string. -/
structure ResultadoViagem where
  destino : String
  num_dias : ℚ
  num_viajantes : ℚ
  total_acomodacao : String
  total_alimentacao : String
  custo_transporte_total : String
  custo_atividades_total : String
  subtotal : String
  percentual_reserva : String
  reserva : String
  custo_total_final : String
  custo_por_pessoa : String
  custo_por_dia_pessoa : String

/-- src/app.py lines 50-94, `calcular_custos_completos`. -/
def calcular_custos_completos (destino : String)
    (num_dias num_viajantes custo_acomodacao_noite custo_transporte_total
      custo_alimentacao_dia_pessoa custo_atividades_total
      percentual_reserva : ℚ) : Option ResultadoViagem :=
  if num_dias ≤ 0 ∨ num_viajantes ≤ 0 then none
  else
    let total_acomodacao := custo_acomodacao_noite * num_dias
    let total_alimentacao := custo_alimentacao_dia_pessoa * num_dias * num_viajantes
    let subtotal := total_acomodacao + custo_transporte_total +
      total_alimentacao + custo_atividades_total
    let reserva := subtotal * (percentual_reserva / 100)
    let custo_total_final := subtotal + reserva
    some
      { destino := pyUpper destino
        num_dias := num_dias
        num_viajantes := num_viajantes
        total_acomodacao := formatar_moeda total_acomodacao
        total_alimentacao := formatar_moeda total_alimentacao
        custo_transporte_total := formatar_moeda custo_transporte_total
        custo_atividades_total := formatar_moeda custo_atividades_total
        subtotal := formatar_moeda subtotal
        percentual_reserva := pyFormat0 percentual_reserva ++ "%"
        reserva := formatar_moeda reserva
        custo_total_final := formatar_moeda custo_total_final
        custo_por_pessoa := formatar_moeda (custo_total_final / num_viajantes)
        custo_por_dia_pessoa := formatar_moeda (custo_total_final / num_viajantes / num_dias) }

/-- The numeric values `calcular_custos_completos` computes (src/app.py
lines 64-77 together with the two per-person divisions done inline in the
dict, lines 92-93), before display formatting. -/
structure ValoresViagem where
  total_acomodacao : ℚ
  total_alimentacao : ℚ
  subtotal : ℚ
  reserva : ℚ
  custo_total_final : ℚ
  custo_por_pessoa : ℚ
  custo_por_dia_pessoa : ℚ

/-- src/app.py lines 64-77 and the inline divisions of lines 92-93: the
validation and numeric computation of `calcular_custos_completos` (the
destination plays no part in these values). -/
def calcular_custos_completos_valores (num_dias num_viajantes
    custo_acomodacao_noite custo_transporte_total custo_alimentacao_dia_pessoa
    custo_atividades_total percentual_reserva : ℚ) : Option ValoresViagem :=
  if num_dias ≤ 0 ∨ num_viajantes ≤ 0 then none
  else
    let total_acomodacao := custo_acomodacao_noite * num_dias
    let total_alimentacao := custo_alimentacao_dia_pessoa * num_dias * num_viajantes
    let subtotal := total_acomodacao + custo_transporte_total +
      total_alimentacao + custo_atividades_total
    let reserva := subtotal * (percentual_reserva / 100)
    let custo_total_final := subtotal + reserva
    some ⟨total_acomodacao, total_alimentacao, subtotal, reserva,
      custo_total_final, custo_total_final / num_viajantes,
      custo_total_final / num_viajantes / num_dias⟩

/-- Every field of the trip result dict except `destino`, bundled so that
independence from the destination can be stated. -/
def camposSemDestino (r : ResultadoViagem) :=
  (r.num_dias, r.num_viajantes, r.total_acomodacao, r.total_alimentacao,
    r.custo_transporte_total, r.custo_atividades_total, r.subtotal,
    r.percentual_reserva, r.reserva, r.custo_total_final, r.custo_por_pessoa,
    r.custo_por_dia_pessoa)

/-- src/app.py lines 179-183, the transformation `valores_numericos` applies
to each formatted money string before charting: strip "R$ ", delete the
thousands dots, turn the decimal comma into a dot, convert with `float`. -/
def parse_valor_br (s : String) : Option ℚ :=
  pyFloat? (pyReplaceChar ',' '.' (pyRemoveChar '.' (pyRemoveRS s)))

/-- The net effect on one character of the three `replace` calls in
`formatar_moeda` and `formatar_numero`: ',' and '.' are exchanged. -/
def swapCD (c : Char) : Char := if c = ',' then '.' else if c = '.' then ',' else c

/-! ### Digit and character facts -/

lemma digitChar_isDigit {d : ℕ} (h : d < 10) : (digitChar d).isDigit = true := by
  interval_cases d <;> decide

lemma digitVal_digitChar {d : ℕ} (h : d < 10) : digitVal (digitChar d) = d := by
  interval_cases d <;> decide

lemma isDigit_ne {c : Char} (h : c.isDigit = true) :
    c ≠ 'X' ∧ c ≠ ',' ∧ c ≠ '.' ∧ c ≠ '-' ∧ c ≠ 'R' := by
  refine ⟨?_, ?_, ?_, ?_, ?_⟩ <;> (rintro rfl; exact absurd h (by decide))

lemma natDigitsRevAux_eq (fuel n : ℕ) (h : n ≤ fuel) :
    natDigitsRevAux fuel n = Nat.digits 10 n := by
  induction fuel generalizing n with
  | zero =>
    have : n = 0 := by omega
    subst this
    rw [Nat.digits_zero]
    rfl
  | succ fuel ih =>
    cases n with
    | zero =>
      rw [Nat.digits_zero]
      rfl
    | succ n =>
      rw [natDigitsRevAux, Nat.digits_def' (by norm_num : (1:ℕ) < 10) (Nat.succ_pos n)]
      have hdiv : (n + 1) / 10 < n + 1 := Nat.div_lt_self (Nat.succ_pos n) (by norm_num)
      rw [ih ((n + 1) / 10) (by omega)]

lemma natDigitsRev_eq (n : ℕ) : natDigitsRev n = Nat.digits 10 n :=
  natDigitsRevAux_eq n n le_rfl

lemma mem_natDigitsRev {n d : ℕ} (h : d ∈ natDigitsRev n) : d < 10 := by
  rw [natDigitsRev_eq] at h
  exact Nat.digits_lt_base (by norm_num) h

lemma parseNatAux_append (acc : ℕ) (l : List Char) (c : Char) :
    parseNatAux acc (l ++ [c]) = 10 * parseNatAux acc l + digitVal c := by
  induction l generalizing acc with
  | nil => rfl
  | cons x xs ih =>
    show parseNatAux (10 * acc + digitVal x) (xs ++ [c]) = _
    rw [ih]
    rfl

lemma parseNatAux_revMap (ds : List ℕ) (h : ∀ d ∈ ds, d < 10) :
    parseNatAux 0 ((ds.map digitChar).reverse) = Nat.ofDigits 10 ds := by
  induction ds with
  | nil => rfl
  | cons d ds ih =>
    simp only [List.map_cons, List.reverse_cons]
    rw [parseNatAux_append, ih fun x hx => h x (List.mem_cons_of_mem _ hx),
      digitVal_digitChar (h d (List.mem_cons_self _ _)), Nat.ofDigits_cons]
    ring

lemma parseNatAux_natChars (n : ℕ) : parseNatAux 0 (natChars n) = n := by
  by_cases h : n = 0
  · subst h; rfl
  · rw [natChars, if_neg h,
      parseNatAux_revMap (natDigitsRev n) fun d hd => mem_natDigitsRev hd,
      natDigitsRev_eq, Nat.ofDigits_digits]

lemma natChars_ne_nil (n : ℕ) : natChars n ≠ [] := by
  rw [natChars]
  split
  · simp
  · rename_i h
    simp only [ne_eq, List.reverse_eq_nil_iff, List.map_eq_nil_iff]
    rw [natDigitsRev_eq]
    simp [Nat.digits_eq_nil_iff_eq_zero, h]

lemma mem_natChars {c : Char} {n : ℕ} (h : c ∈ natChars n) : c.isDigit = true := by
  rw [natChars] at h
  split at h
  · simp only [List.mem_singleton] at h
    subst h
    decide
  · rw [List.mem_reverse] at h
    obtain ⟨d, hd, rfl⟩ := List.mem_map.mp h
    exact digitChar_isDigit (mem_natDigitsRev hd)

lemma mem_group3Rev {c : Char} {l : List Char} (h : c ∈ group3Rev l) :
    c ∈ l ∨ c = ',' := by
  induction l using group3Rev.induct with
  | case1 a b x d rest ih =>
    rw [group3Rev] at h
    simp only [List.mem_cons] at h ⊢
    rcases h with rfl | rfl | rfl | rfl | h
    · exact Or.inl (Or.inl rfl)
    · exact Or.inl (Or.inr (Or.inl rfl))
    · exact Or.inl (Or.inr (Or.inr (Or.inl rfl)))
    · exact Or.inr rfl
    · rcases ih h with h' | h'
      · simp only [List.mem_cons] at h'
        exact Or.inl (Or.inr (Or.inr (Or.inr h')))
      · exact Or.inr h'
  | case2 l hne =>
    rcases l with - | ⟨a, - | ⟨b, - | ⟨x, - | ⟨d, rest⟩⟩⟩⟩
    · exact Or.inl h
    · exact Or.inl h
    · exact Or.inl h
    · exact Or.inl h
    · exact (hne a b x d rest rfl).elim

lemma filter_cons_congr {p : Char → Bool} {t₁ t₂ : List Char} (a : Char)
    (h : t₁.filter p = t₂.filter p) : (a :: t₁).filter p = (a :: t₂).filter p := by
  rw [List.filter_cons, List.filter_cons, h]

lemma filter_group3Rev (l : List Char) :
    (group3Rev l).filter (fun c => c ≠ ',') = l.filter (fun c => c ≠ ',') := by
  induction l using group3Rev.induct with
  | case1 a b x d rest ih =>
    show (a :: b :: x :: ',' :: group3Rev (d :: rest)).filter _ =
      (a :: b :: x :: d :: rest).filter _
    refine filter_cons_congr a (filter_cons_congr b (filter_cons_congr x ?_))
    rw [List.filter_cons, if_neg (by simp)]
    exact ih
  | case2 l hne =>
    rcases l with - | ⟨a, - | ⟨b, - | ⟨x, - | ⟨d, rest⟩⟩⟩⟩
    · rfl
    · rfl
    · rfl
    · rfl
    · exact (hne a b x d rest rfl).elim

lemma mem_natCharsGrouped {c : Char} {n : ℕ} (h : c ∈ natCharsGrouped n) :
    c.isDigit = true ∨ c = ',' := by
  rw [natCharsGrouped, List.mem_reverse] at h
  rcases mem_group3Rev h with h' | h'
  · exact Or.inl (mem_natChars (List.mem_reverse.mp h'))
  · exact Or.inr h'

lemma filter_natCharsGrouped (n : ℕ) :
    (natCharsGrouped n).filter (fun c => c ≠ ',') = natChars n := by
  have h2 : (natChars n).filter (fun c => c ≠ ',') = natChars n :=
    List.filter_eq_self.mpr fun c hc => by
      simpa using (isDigit_ne (mem_natChars hc)).2.1
  rw [natCharsGrouped, List.filter_reverse, filter_group3Rev, List.filter_reverse,
    List.reverse_reverse, h2]

/-! ### The replace chain and the inverse transformation -/

lemma map_replace_chain {l : List Char} (h : 'X' ∉ l) :
    ((l.map fun c => if c = ',' then 'X' else c).map fun c => if c = '.' then ',' else c).map
      (fun c => if c = 'X' then '.' else c) = l.map swapCD := by
  rw [List.map_map, List.map_map]
  refine List.map_congr_left fun c hc => ?_
  have hcX : c ≠ 'X' := fun e => h (e ▸ hc)
  by_cases h1 : c = ','
  · subst h1; rfl
  · by_cases h2 : c = '.'
    · subst h2; rfl
    · simp only [Function.comp_apply, swapCD, if_neg h1, if_neg h2, if_neg hcX]

lemma map_swap_parse {l : List Char}
    (hinv : ∀ c ∈ l, c.isDigit = true ∨ c = '-' ∨ c = ',' ∨ c = '.') :
    ((l.map swapCD).filter (fun c => c ≠ '.')).map (fun c => if c = ',' then '.' else c) =
      l.filter (fun c => c ≠ ',') := by
  induction l with
  | nil => rfl
  | cons c cs ih =>
    have ih' := ih fun x hx => hinv x (List.mem_cons_of_mem _ hx)
    rcases hinv c (List.mem_cons_self _ _) with hd | rfl | rfl | rfl
    · obtain ⟨-, hc2, hc3, -, -⟩ := isDigit_ne hd
      have hs : swapCD c = c := by rw [swapCD, if_neg hc2, if_neg hc3]
      rw [List.map_cons, hs, List.filter_cons, if_pos (by simpa using hc3),
        List.map_cons, if_neg hc2, List.filter_cons, if_pos (by simpa using hc2), ih']
    · rw [List.map_cons, show swapCD '-' = '-' from rfl, List.filter_cons,
        if_pos (by decide), List.map_cons, if_neg (by decide), List.filter_cons,
        if_pos (by decide), ih']
    · rw [List.map_cons, show swapCD ',' = '.' from rfl, List.filter_cons,
        if_neg (by decide), List.filter_cons, if_neg (by decide), ih']
    · rw [List.map_cons, show swapCD '.' = ',' from rfl, List.filter_cons,
        if_pos (by decide), List.map_cons, if_pos rfl, List.filter_cons,
        if_pos (by decide), ih']

lemma removeRSList_cons_ne {c : Char} (rest : List Char) (hc : c ≠ 'R') :
    removeRSList (c :: rest) = c :: removeRSList rest := by
  rw [removeRSList.eq_def]
  split
  · rename_i heq
    rw [List.cons.injEq] at heq
    exact absurd heq.1 hc
  · rename_i c' rest' heq
    rw [List.cons.injEq] at heq
    rw [heq.1, heq.2]
  · rename_i heq
    exact absurd heq (by simp)

lemma removeRSList_eq_self {l : List Char} (h : 'R' ∉ l) : removeRSList l = l := by
  induction l with
  | nil => rfl
  | cons c rest ih =>
    have hc : c ≠ 'R' := fun e => h (e ▸ List.mem_cons_self _ _)
    rw [removeRSList_cons_ne rest hc, ih fun hm => h (List.mem_cons_of_mem _ hm)]

lemma takeWhile_digits (ds fs : List Char) (h : ∀ c ∈ ds, c.isDigit = true) :
    (ds ++ '.' :: fs).takeWhile Char.isDigit = ds ∧
    (ds ++ '.' :: fs).dropWhile Char.isDigit = '.' :: fs := by
  induction ds with
  | nil =>
    constructor
    · rw [List.nil_append, List.takeWhile_cons, if_neg (by decide)]
    · rw [List.nil_append, List.dropWhile_cons, if_neg (by decide)]
  | cons c cs ih =>
    obtain ⟨h1, h2⟩ := ih fun x hx => h x (List.mem_cons_of_mem _ hx)
    have hc := h c (List.mem_cons_self _ _)
    constructor
    · rw [List.cons_append, List.takeWhile_cons, if_pos hc, h1]
    · rw [List.cons_append, List.dropWhile_cons, if_pos hc, h2]

lemma pyFloatChars?_frac (ds fs : List Char) (hds : ∀ c ∈ ds, c.isDigit = true)
    (hfs : ∀ c ∈ fs, c.isDigit = true) (hne : ds ≠ []) :
    pyFloatChars? (ds ++ '.' :: fs) =
      some (((parseNatAux 0 ds : ℕ) : ℚ) + ((parseNatAux 0 fs : ℕ) : ℚ) / 10 ^ fs.length) := by
  obtain ⟨ht, hd⟩ := takeWhile_digits ds fs hds
  have hall : fs.all Char.isDigit = true := List.all_eq_true.mpr hfs
  have hdse : ds.isEmpty = false := by
    cases ds
    · exact absurd rfl hne
    · rfl
  simp only [pyFloatChars?, ht, hd, hall, hdse, Bool.true_and, Bool.false_and,
    Bool.not_false, if_true]

/-! ### Sign and evaluation facts about the rounding -/

lemma roundHalfEven_nonneg {x : ℚ} (h : 0 ≤ x) : 0 ≤ roundHalfEven x := by
  have h0 : (0:ℤ) ≤ ⌊x⌋ := Int.floor_nonneg.mpr h
  rw [roundHalfEven]
  split_ifs <;> omega

lemma roundHalfEven_nonpos {x : ℚ} (h : x < 0) : roundHalfEven x ≤ 0 := by
  have h0 : ⌊x⌋ < 0 := Int.floor_lt.mpr (by exact_mod_cast h)
  rw [roundHalfEven]
  split_ifs <;> omega

lemma roundHalfEven_of_lt (x : ℚ) (n : ℤ) (h₁ : (n : ℚ) ≤ x) (h₂ : x < (n : ℚ) + 1 / 2) :
    roundHalfEven x = n := by
  have hf : ⌊x⌋ = n := Int.floor_eq_iff.mpr ⟨h₁, by linarith⟩
  have hlt : Int.fract x < 1 / 2 := by
    simp only [Int.fract, hf]
    linarith
  rw [roundHalfEven, if_pos hlt, hf]

lemma roundHalfEven_of_gt (x : ℚ) (n : ℤ) (h₁ : (n : ℚ) + 1 / 2 < x) (h₂ : x < (n : ℚ) + 1) :
    roundHalfEven x = n + 1 := by
  have hf : ⌊x⌋ = n := Int.floor_eq_iff.mpr ⟨by linarith, h₂⟩
  have h3 : ¬ Int.fract x < 1 / 2 := by
    simp only [Int.fract, hf]
    push_neg
    linarith
  have h4 : 1 / 2 < Int.fract x := by
    simp only [Int.fract, hf]
    linarith
  rw [roundHalfEven, if_neg h3, if_pos h4, hf]

/-! ### The round trip: parsing back a formatted currency string -/

lemma data_pyReplaceChar (a b : Char) (s : String) :
    (pyReplaceChar a b s).data = s.data.map fun c => if c = a then b else c := rfl

lemma data_pyRemoveChar (a : Char) (s : String) :
    (pyRemoveChar a s).data = s.data.filter fun c => c ≠ a := rfl

lemma data_pyRemoveRS (s : String) : (pyRemoveRS s).data = removeRSList s.data := rfl

lemma parse_valor_br_def (s : String) :
    parse_valor_br s = pyFloat? (pyReplaceChar ',' '.' (pyRemoveChar '.' (pyRemoveRS s))) := rfl

lemma data_pyFormatComma2 (v : ℚ) : (pyFormatComma2 v).data =
    (if v < 0 then ['-'] else []) ++
      (natCharsGrouped ((roundHalfEven (100 * v)).natAbs / 100) ++
        '.' :: [digitChar ((roundHalfEven (100 * v)).natAbs % 100 / 10),
          digitChar ((roundHalfEven (100 * v)).natAbs % 10)]) := by
  show (if v < 0 then ['-'] else []) ++
      natCharsGrouped ((roundHalfEven (100 * v)).natAbs / 100) ++
        '.' :: [digitChar ((roundHalfEven (100 * v)).natAbs % 100 / 10),
          digitChar ((roundHalfEven (100 * v)).natAbs % 10)] = _
  rw [List.append_assoc]

lemma mem_pyFormatComma2 {v : ℚ} {c : Char} (hc : c ∈ (pyFormatComma2 v).data) :
    c.isDigit = true ∨ c = '-' ∨ c = ',' ∨ c = '.' := by
  rw [data_pyFormatComma2] at hc
  rcases List.mem_append.mp hc with h1 | h2
  · split at h1
    · exact Or.inr (Or.inl (List.mem_singleton.mp h1))
    · exact absurd h1 (List.not_mem_nil c)
  · rcases List.mem_append.mp h2 with h3 | h4
    · rcases mem_natCharsGrouped h3 with h | h
      · exact Or.inl h
      · exact Or.inr (Or.inr (Or.inl h))
    · rcases List.mem_cons.mp h4 with rfl | h5
      · exact Or.inr (Or.inr (Or.inr rfl))
      · rcases List.mem_cons.mp h5 with rfl | h6
        · exact Or.inl (digitChar_isDigit (by omega))
        · rcases List.mem_cons.mp h6 with rfl | h7
          · exact Or.inl (digitChar_isDigit (by omega))
          · exact absurd h7 (List.not_mem_nil c)

lemma pyFloat?_neg (s : String) (l : List Char) (h : s.data = '-' :: l) :
    pyFloat? s = (pyFloatChars? l).map fun q => -q := by
  rw [pyFloat?.eq_def, h]
  rfl

lemma pyFloat?_pos (s : String) (c : Char) (l : List Char) (hc : c ≠ '-')
    (h : s.data = c :: l) : pyFloat? s = pyFloatChars? (c :: l) := by
  rw [pyFloat?.eq_def, h]
  split
  · rename_i heq
    rw [List.cons.injEq] at heq
    exact absurd heq.1 hc
  · rfl

lemma parseNatAux_pair (x y : Char) :
    parseNatAux 0 [x, y] = 10 * (10 * 0 + digitVal x) + digitVal y := rfl

lemma pyFloatChars?_cents (m : ℕ) :
    pyFloatChars? (natChars (m / 100) ++ '.' :: [digitChar (m % 100 / 10), digitChar (m % 10)]) =
      some ((m : ℚ) / 100) := by
  have hds : ∀ c ∈ natChars (m / 100), c.isDigit = true := fun c hc => mem_natChars hc
  have hfs : ∀ c ∈ [digitChar (m % 100 / 10), digitChar (m % 10)], c.isDigit = true := by
    intro c hc
    rcases List.mem_cons.mp hc with rfl | h5
    · exact digitChar_isDigit (by omega)
    · rcases List.mem_cons.mp h5 with rfl | h6
      · exact digitChar_isDigit (by omega)
      · exact absurd h6 (List.not_mem_nil c)
  rw [pyFloatChars?_frac _ _ hds hfs (natChars_ne_nil _), parseNatAux_natChars]
  have h2 : parseNatAux 0 [digitChar (m % 100 / 10), digitChar (m % 10)] = m % 100 := by
    rw [parseNatAux_pair, digitVal_digitChar (by omega), digitVal_digitChar (by omega)]
    omega
  rw [h2]
  have hlen : ((10:ℚ)) ^ (List.length [digitChar (m % 100 / 10), digitChar (m % 10)]) = 100 := by
    norm_num
  rw [hlen]
  have h100 : (100:ℚ) ≠ 0 := by norm_num
  field_simp
  norm_cast
  omega

lemma filter_format_list (m : ℕ) (sign : List Char)
    (hsign : sign.filter (fun c => c ≠ ',') = sign) :
    (sign ++ (natCharsGrouped (m / 100) ++
        '.' :: [digitChar (m % 100 / 10), digitChar (m % 10)])).filter (fun c => c ≠ ',') =
      sign ++ (natChars (m / 100) ++ '.' :: [digitChar (m % 100 / 10), digitChar (m % 10)]) := by
  rw [List.filter_append, List.filter_append, filter_natCharsGrouped, hsign]
  congr 2
  rw [List.filter_cons, if_pos (by decide)]
  congr 1
  refine List.filter_eq_self.mpr fun c hc => ?_
  rcases List.mem_cons.mp hc with rfl | h5
  · simpa using (isDigit_ne (digitChar_isDigit (by omega : m % 100 / 10 < 10))).2.1
  · rcases List.mem_cons.mp h5 with rfl | h6
    · simpa using (isDigit_ne (digitChar_isDigit (by omega : m % 10 < 10))).2.1
    · exact absurd h6 (List.not_mem_nil c)

lemma parse_valor_br_formatar_moeda (v : ℚ) :
    parse_valor_br (formatar_moeda v) =
      some (((roundHalfEven (100 * v) : ℤ) : ℚ) / 100) := by
  have huinv : ∀ c ∈ (pyFormatComma2 v).data,
      c.isDigit = true ∨ c = '-' ∨ c = ',' ∨ c = '.' := fun c hc => mem_pyFormatComma2 hc
  have hXfull : 'X' ∉ ("R$ " ++ pyFormatComma2 v).data := by
    rw [String.data_append]
    intro hc
    rcases List.mem_append.mp hc with h1 | h2
    · exact absurd h1 (by decide)
    · rcases huinv _ h2 with h | h | h | h
      · exact absurd h (by decide)
      · exact absurd h (by decide)
      · exact absurd h (by decide)
      · exact absurd h (by decide)
  have hdata : (formatar_moeda v).data =
      'R' :: '$' :: ' ' :: (pyFormatComma2 v).data.map swapCD := by
    simp only [formatar_moeda, data_pyReplaceChar]
    rw [map_replace_chain hXfull, String.data_append, List.map_append]
    rfl
  have hrs : removeRSList (formatar_moeda v).data = (pyFormatComma2 v).data.map swapCD := by
    rw [hdata]
    have h2 : removeRSList ('R' :: '$' :: ' ' :: (pyFormatComma2 v).data.map swapCD) =
        removeRSList ((pyFormatComma2 v).data.map swapCD) := rfl
    rw [h2]
    apply removeRSList_eq_self
    intro hmem
    obtain ⟨c, hcmem, hceq⟩ := List.mem_map.mp hmem
    rcases huinv c hcmem with h | h | h | h
    · obtain ⟨-, hc2, hc3, -, hc5⟩ := isDigit_ne h
      rw [swapCD, if_neg hc2, if_neg hc3] at hceq
      exact hc5 hceq
    · rw [h] at hceq
      exact absurd hceq (by decide)
    · rw [h] at hceq
      exact absurd hceq (by decide)
    · rw [h] at hceq
      exact absurd hceq (by decide)
  have hparse : (pyReplaceChar ',' '.' (pyRemoveChar '.' (pyRemoveRS (formatar_moeda v)))).data =
      (pyFormatComma2 v).data.filter (fun c => c ≠ ',') := by
    rw [data_pyReplaceChar, data_pyRemoveChar, data_pyRemoveRS, hrs]
    exact map_swap_parse huinv
  have hfu : (pyFormatComma2 v).data.filter (fun c => c ≠ ',') =
      (if v < 0 then ['-'] else []) ++
        (natChars ((roundHalfEven (100 * v)).natAbs / 100) ++
          '.' :: [digitChar ((roundHalfEven (100 * v)).natAbs % 100 / 10),
            digitChar ((roundHalfEven (100 * v)).natAbs % 10)]) := by
    rw [data_pyFormatComma2]
    refine filter_format_list _ _ ?_
    split
    · rfl
    · rfl
  rw [parse_valor_br_def]
  by_cases hv : v < 0
  · have hs : (pyReplaceChar ',' '.' (pyRemoveChar '.' (pyRemoveRS (formatar_moeda v)))).data =
        '-' :: (natChars ((roundHalfEven (100 * v)).natAbs / 100) ++
          '.' :: [digitChar ((roundHalfEven (100 * v)).natAbs % 100 / 10),
            digitChar ((roundHalfEven (100 * v)).natAbs % 10)]) := by
      rw [hparse, hfu, if_pos hv, List.singleton_append]
    rw [pyFloat?_neg _ _ hs, pyFloatChars?_cents, Option.map_some']
    have hk : roundHalfEven (100 * v) ≤ 0 :=
      roundHalfEven_nonpos (mul_neg_of_pos_of_neg (by norm_num) hv)
    have h2 : ((roundHalfEven (100 * v)).natAbs : ℤ) = -(roundHalfEven (100 * v)) := by omega
    have hcast : (((roundHalfEven (100 * v)).natAbs : ℕ) : ℚ) =
        -((roundHalfEven (100 * v) : ℤ) : ℚ) := by
      rw [show ((((roundHalfEven (100 * v)).natAbs : ℕ) : ℚ)) =
        ((((roundHalfEven (100 * v)).natAbs : ℕ) : ℤ) : ℚ) from (Int.cast_natCast _).symm,
        h2, Int.cast_neg]
    rw [hcast]
    congr 1
    ring
  · obtain ⟨c0, t0, hnat⟩ :=
      List.exists_cons_of_ne_nil (natChars_ne_nil ((roundHalfEven (100 * v)).natAbs / 100))
    have hc0 : c0.isDigit = true := mem_natChars (hnat ▸ List.mem_cons_self c0 t0)
    have hc0ne : c0 ≠ '-' := (isDigit_ne hc0).2.2.2.1
    have hs : (pyReplaceChar ',' '.' (pyRemoveChar '.' (pyRemoveRS (formatar_moeda v)))).data =
        c0 :: (t0 ++ '.' :: [digitChar ((roundHalfEven (100 * v)).natAbs % 100 / 10),
          digitChar ((roundHalfEven (100 * v)).natAbs % 10)]) := by
      rw [hparse, hfu, if_neg hv, List.nil_append, hnat, List.cons_append]
    rw [pyFloat?_pos _ _ _ hc0ne hs, ← List.cons_append, ← hnat, pyFloatChars?_cents]
    have hk : 0 ≤ roundHalfEven (100 * v) := by
      refine roundHalfEven_nonneg ?_
      have hv2 : 0 ≤ v := not_lt.mp hv
      positivity
    have h2 : ((roundHalfEven (100 * v)).natAbs : ℤ) = roundHalfEven (100 * v) := by omega
    have hcast : (((roundHalfEven (100 * v)).natAbs : ℕ) : ℚ) =
        ((roundHalfEven (100 * v) : ℤ) : ℚ) := by
      rw [show ((((roundHalfEven (100 * v)).natAbs : ℕ) : ℚ)) =
        ((((roundHalfEven (100 * v)).natAbs : ℕ) : ℤ) : ℚ) from (Int.cast_natCast _).symm,
        h2]
    rw [hcast]

/-! ### Evaluation helper and consistency of the two presentations -/

lemma formatar_moeda_eval (v : ℚ) (k : ℤ) (h0 : ¬ v < 0)
    (h : roundHalfEven (100 * v) = k) :
    formatar_moeda v = pyReplaceChar 'X' '.' (pyReplaceChar '.' ',' (pyReplaceChar ',' 'X'
      ("R$ " ++ String.mk (natCharsGrouped (k.natAbs / 100) ++
        '.' :: [digitChar (k.natAbs % 100 / 10), digitChar (k.natAbs % 10)])))) := by
  have h1 : pyFormatComma2 v = String.mk (natCharsGrouped (k.natAbs / 100) ++
      '.' :: [digitChar (k.natAbs % 100 / 10), digitChar (k.natAbs % 10)]) := by
    show String.mk ((if v < 0 then ['-'] else []) ++
      natCharsGrouped ((roundHalfEven (100 * v)).natAbs / 100) ++
        '.' :: [digitChar ((roundHalfEven (100 * v)).natAbs % 100 / 10),
          digitChar ((roundHalfEven (100 * v)).natAbs % 10)]) = _
    rw [h, if_neg h0, List.nil_append]
  show pyReplaceChar 'X' '.' (pyReplaceChar '.' ',' (pyReplaceChar ',' 'X'
    ("R$ " ++ pyFormatComma2 v))) = _
  rw [h1]

lemma calcular_combustivel_eq_map (d c p n : ℚ) :
    calcular_combustivel d c p n = (calcular_combustivel_valores d c p n).map fun w =>
      { distancia_total := d
        litros_necessarios := formatar_numero w.litros_necessarios " L"
        preco_combustivel := formatar_moeda p
        custo_total_combustivel := formatar_moeda w.custo_total
        custo_por_pessoa_combustivel := formatar_moeda w.custo_por_pessoa
        num_viajantes := n } := by
  unfold calcular_combustivel calcular_combustivel_valores
  split
  · rfl
  · rfl

lemma calcular_custos_completos_eq_map (dest : String) (nd nv ca ct cal cat pr : ℚ) :
    calcular_custos_completos dest nd nv ca ct cal cat pr =
      (calcular_custos_completos_valores nd nv ca ct cal cat pr).map fun w =>
        { destino := pyUpper dest
          num_dias := nd
          num_viajantes := nv
          total_acomodacao := formatar_moeda w.total_acomodacao
          total_alimentacao := formatar_moeda w.total_alimentacao
          custo_transporte_total := formatar_moeda ct
          custo_atividades_total := formatar_moeda cat
          subtotal := formatar_moeda w.subtotal
          percentual_reserva := pyFormat0 pr ++ "%"
          reserva := formatar_moeda w.reserva
          custo_total_final := formatar_moeda w.custo_total_final
          custo_por_pessoa := formatar_moeda w.custo_por_pessoa
          custo_por_dia_pessoa := formatar_moeda w.custo_por_dia_pessoa } := by
  unfold calcular_custos_completos calcular_custos_completos_valores
  split
  · rfl
  · rfl

/-! ### Claims -/

/-- C1: for every input with totalDistance, fuelEconomy, fuelPrice and
travelerCount all positive, `calcular_combustivel` computes
fuelNeeded = totalDistance / fuelEconomy, totalCost = fuelNeeded * fuelPrice
and costPerTraveler = totalCost / travelerCount, and over exact rational
arithmetic fuelNeeded * fuelEconomy = totalDistance and
costPerTraveler * travelerCount = totalCost hold exactly. -/
theorem C1_fuel_arithmetic (d c p n : ℚ)
    (hd : 0 < d) (hc : 0 < c) (hp : 0 < p) (hn : 0 < n) :
    calcular_combustivel_valores d c p n =
      some ⟨d / c, d / c * p, d / c * p / n⟩ ∧
    d / c * c = d ∧ d / c * p / n * n = d / c * p := by
  refine ⟨?_, ?_, ?_⟩
  · show (if d ≤ 0 ∨ c ≤ 0 ∨ p ≤ 0 ∨ n ≤ 0 then none else
      some (⟨d / c, d / c * p, d / c * p / n⟩ : ValoresCombustivel)) = _
    rw [if_neg]
    push_neg
    exact ⟨hd, hc, hp, hn⟩
  · exact div_mul_cancel₀ _ hc.ne'
  · exact div_mul_cancel₀ _ hn.ne'

/-- Witness for C1 at Scenario A of the spec: distance 500, economy 12,
price 5.99, travelers 2. -/
theorem C1_fuel_arithmetic_witness :
    calcular_combustivel_valores 500 12 (599 / 100) 2 =
      some ⟨500 / 12, 500 / 12 * (599 / 100), 500 / 12 * (599 / 100) / 2⟩ ∧
    (500 : ℚ) / 12 * 12 = 500 ∧
    (500 : ℚ) / 12 * (599 / 100) / 2 * 2 = 500 / 12 * (599 / 100) :=
  C1_fuel_arithmetic 500 12 (599 / 100) 2 (by norm_num) (by norm_num) (by norm_num)
    (by norm_num)

/-- C2: for numDays and travelerCount positive, `calcular_custos_completos`
computes the seven derived quantities exactly as the spec equations state:
lodgingTotal = lodgingPerNight * numDays,
foodTotal = foodPerDayPerPerson * numDays * travelerCount,
subtotal = lodgingTotal + transportTotal + foodTotal + activitiesTotal,
reserveAmount = subtotal * reservePercent / 100,
grandTotal = subtotal + reserveAmount, costPerTraveler = grandTotal / travelerCount,
costPerTravelerPerDay = costPerTraveler / numDays. -/
theorem C2_trip_equations (nd nv ca ct cal cat pr : ℚ) (h1 : 0 < nd) (h2 : 0 < nv) :
    calcular_custos_completos_valores nd nv ca ct cal cat pr =
      some { total_acomodacao := ca * nd
             total_alimentacao := cal * nd * nv
             subtotal := ca * nd + ct + cal * nd * nv + cat
             reserva := (ca * nd + ct + cal * nd * nv + cat) * pr / 100
             custo_total_final := ca * nd + ct + cal * nd * nv + cat +
               (ca * nd + ct + cal * nd * nv + cat) * pr / 100
             custo_por_pessoa := (ca * nd + ct + cal * nd * nv + cat +
               (ca * nd + ct + cal * nd * nv + cat) * pr / 100) / nv
             custo_por_dia_pessoa := (ca * nd + ct + cal * nd * nv + cat +
               (ca * nd + ct + cal * nd * nv + cat) * pr / 100) / nv / nd } := by
  show (if nd ≤ 0 ∨ nv ≤ 0 then none else
    some (⟨ca * nd, cal * nd * nv, ca * nd + ct + cal * nd * nv + cat,
      (ca * nd + ct + cal * nd * nv + cat) * (pr / 100),
      ca * nd + ct + cal * nd * nv + cat +
        (ca * nd + ct + cal * nd * nv + cat) * (pr / 100),
      (ca * nd + ct + cal * nd * nv + cat +
        (ca * nd + ct + cal * nd * nv + cat) * (pr / 100)) / nv,
      (ca * nd + ct + cal * nd * nv + cat +
        (ca * nd + ct + cal * nd * nv + cat) * (pr / 100)) / nv / nd⟩ : ValoresViagem)) = _
  rw [if_neg (by push_neg; exact ⟨h1, h2⟩)]
  simp only [Option.some.injEq, ValoresViagem.mk.injEq]
  refine ⟨trivial, trivial, trivial, ?_, ?_, ?_, ?_⟩ <;> ring

/-- Witness for C2 at Scenario B of the spec: 7 days, 2 travelers, lodging
300 per night, transport 2500, food 80 per day per person, activities 500,
reserve 10 percent. -/
theorem C2_trip_equations_witness :
    calcular_custos_completos_valores 7 2 300 2500 80 500 10 =
      some { total_acomodacao := (300 : ℚ) * 7
             total_alimentacao := (80 : ℚ) * 7 * 2
             subtotal := (300 : ℚ) * 7 + 2500 + 80 * 7 * 2 + 500
             reserva := ((300 : ℚ) * 7 + 2500 + 80 * 7 * 2 + 500) * 10 / 100
             custo_total_final := (300 : ℚ) * 7 + 2500 + 80 * 7 * 2 + 500 +
               ((300 : ℚ) * 7 + 2500 + 80 * 7 * 2 + 500) * 10 / 100
             custo_por_pessoa := ((300 : ℚ) * 7 + 2500 + 80 * 7 * 2 + 500 +
               ((300 : ℚ) * 7 + 2500 + 80 * 7 * 2 + 500) * 10 / 100) / 2
             custo_por_dia_pessoa := ((300 : ℚ) * 7 + 2500 + 80 * 7 * 2 + 500 +
               ((300 : ℚ) * 7 + 2500 + 80 * 7 * 2 + 500) * 10 / 100) / 2 / 7 } :=
  C2_trip_equations 7 2 300 2500 80 500 10 (by norm_num) (by norm_num)

/-- C3: `calcular_combustivel` returns no result exactly when one of the four
arguments is non-positive. -/
theorem C3_fuel_invalid_iff (d c p n : ℚ) :
    calcular_combustivel d c p n = none ↔ d ≤ 0 ∨ c ≤ 0 ∨ p ≤ 0 ∨ n ≤ 0 := by
  unfold calcular_combustivel
  split
  · rename_i h
    simp [h]
  · rename_i h
    simp [h]

/-- C4: `calcular_custos_completos` returns no result exactly when numDays or
travelerCount is non-positive; the cost fields and the reserve percent are
not validated, so any values of them (negative included) yield a result. -/
theorem C4_trip_invalid_iff (dest : String) (nd nv ca ct cal cat pr : ℚ) :
    calcular_custos_completos dest nd nv ca ct cal cat pr = none ↔
      nd ≤ 0 ∨ nv ≤ 0 := by
  unfold calcular_custos_completos
  split
  · rename_i h
    simp [h]
  · rename_i h
    simp [h]

/-- C5 counterexample: at distance 500, economy 12, price 5.99, travelers 2,
the `custo_total_combustivel` field of the returned dict is the
currency-formatted string "R$ 249,58" — produced inside the calculator —
whose numeric value 249.58 differs from the unrounded
totalCost = 500 / 12 * 5.99 = 249.58333..., so the calculator does round and
format its result fields rather than returning the raw values. -/
theorem C5_formatting_counterexample :
    (calcular_combustivel 500 12 (599 / 100) 2).map
        (fun r => r.custo_total_combustivel) =
      some (formatar_moeda (500 / 12 * (599 / 100))) ∧
    formatar_moeda (500 / 12 * (599 / 100)) = "R$ 249,58" ∧
    parse_valor_br "R$ 249,58" = some (12479 / 50) ∧
    (12479 / 50 : ℚ) ≠ 500 / 12 * (599 / 100) := by
  have hround : roundHalfEven (100 * (500 / 12 * (599 / 100))) = 24958 :=
    roundHalfEven_of_lt (100 * (500 / 12 * (599 / 100))) 24958 (by norm_num) (by norm_num)
  have hfmt : formatar_moeda (500 / 12 * (599 / 100)) = "R$ 249,58" := by
    rw [formatar_moeda_eval (500 / 12 * (599 / 100)) 24958 (by norm_num) hround]
    rfl
  refine ⟨?_, hfmt, ?_, by norm_num⟩
  · unfold calcular_combustivel
    rw [if_neg (by norm_num)]
    rfl
  · rw [← hfmt, parse_valor_br_formatar_moeda, hround]
    norm_num

/-- C5 amended: for every valid (all-positive) fuel input the calculator does
apply presentation formatting internally — the litre and money fields of the
returned dict are exactly the Brazilian-formatted, two-decimal-rounded
renderings (`formatar_numero` with suffix " L", `formatar_moeda`) of the §3
values; only the echoed inputs distancia_total and num_viajantes are returned
as raw numbers. -/
theorem C5_fields_are_formatted (d c p n : ℚ)
    (hd : 0 < d) (hc : 0 < c) (hp : 0 < p) (hn : 0 < n) :
    calcular_combustivel d c p n = some
      { distancia_total := d
        litros_necessarios := formatar_numero (d / c) " L"
        preco_combustivel := formatar_moeda p
        custo_total_combustivel := formatar_moeda (d / c * p)
        custo_por_pessoa_combustivel := formatar_moeda (d / c * p / n)
        num_viajantes := n } := by
  unfold calcular_combustivel
  rw [if_neg (by push_neg; exact ⟨hd, hc, hp, hn⟩)]

/-- Witness for the amended C5 at Scenario A. -/
theorem C5_fields_are_formatted_witness :
    calcular_combustivel 500 12 (599 / 100) 2 = some
      { distancia_total := (500 : ℚ)
        litros_necessarios := formatar_numero (500 / 12) " L"
        preco_combustivel := formatar_moeda (599 / 100)
        custo_total_combustivel := formatar_moeda (500 / 12 * (599 / 100))
        custo_por_pessoa_combustivel := formatar_moeda (500 / 12 * (599 / 100) / 2)
        num_viajantes := (2 : ℚ) } :=
  C5_fields_are_formatted 500 12 (599 / 100) 2 (by norm_num) (by norm_num) (by norm_num)
    (by norm_num)

/-- C6, Scenario B: days 7, travelers 2, lodging 300 per night,
transport 2500, food 80 per day per person, activities 500, reserve 10
percent gives lodgingTotal 2100, foodTotal 1120, subtotal 6220, reserve 622,
grandTotal 6842, costPerTraveler 3421 and costPerTravelerPerDay 3421 / 7
(= 488.714285...). -/
theorem C6_scenario_B :
    calcular_custos_completos_valores 7 2 300 2500 80 500 10 =
      some ⟨2100, 1120, 6220, 622, 6842, 3421, 3421 / 7⟩ := by
  unfold calcular_custos_completos_valores
  rw [if_neg (by norm_num)]
  simp only [Option.some.injEq, ValoresViagem.mk.injEq]
  norm_num

/-- C7: when the validation of either calculator passes, every divisor used
on the success path is strictly positive (fuelEconomy and travelerCount for
the fuel calculator; travelerCount, numDays and the constant 100 for the trip
calculator), and the call succeeds — the single validation gate is the only
failure mode. -/
theorem C7_validated_divisors_positive (d c p n : ℚ) (dest : String)
    (nd nv ca ct cal cat pr : ℚ)
    (hf : ¬ (d ≤ 0 ∨ c ≤ 0 ∨ p ≤ 0 ∨ n ≤ 0)) (ht : ¬ (nd ≤ 0 ∨ nv ≤ 0)) :
    ((calcular_combustivel d c p n).isSome ∧ 0 < c ∧ 0 < n) ∧
    ((calcular_custos_completos dest nd nv ca ct cal cat pr).isSome ∧
      0 < nv ∧ 0 < nd ∧ (0 : ℚ) < 100) := by
  have hf2 := hf
  have ht2 := ht
  push_neg at hf2 ht2
  obtain ⟨h1, h2, h3, h4⟩ := hf2
  obtain ⟨h5, h6⟩ := ht2
  refine ⟨⟨?_, h2, h4⟩, ?_, h6, h5, by norm_num⟩
  · unfold calcular_combustivel
    rw [if_neg hf]
    rfl
  · unfold calcular_custos_completos
    rw [if_neg ht]
    rfl

/-- Witness for C7 at concrete all-valid inputs. -/
theorem C7_validated_divisors_positive_witness :
    ((calcular_combustivel 500 12 (599 / 100) 2).isSome ∧ (0 : ℚ) < 12 ∧ (0 : ℚ) < 2) ∧
    ((calcular_custos_completos "Paris" 7 2 300 2500 80 500 10).isSome ∧
      (0 : ℚ) < 2 ∧ (0 : ℚ) < 7 ∧ (0 : ℚ) < 100) :=
  C7_validated_divisors_positive 500 12 (599 / 100) 2 "Paris" 7 2 300 2500 80 500 10
    (by norm_num) (by norm_num)

/-- C8: both calculators are pure functions of their arguments — equal
argument tuples give equal results, success or failure alike. -/
theorem C8_deterministic (d₁ c₁ p₁ n₁ d₂ c₂ p₂ n₂ : ℚ) (dest₁ dest₂ : String)
    (nd₁ nv₁ ca₁ ct₁ cal₁ cat₁ pr₁ nd₂ nv₂ ca₂ ct₂ cal₂ cat₂ pr₂ : ℚ)
    (hfuel : (d₁, c₁, p₁, n₁) = (d₂, c₂, p₂, n₂))
    (htrip : (dest₁, nd₁, nv₁, ca₁, ct₁, cal₁, cat₁, pr₁) =
      (dest₂, nd₂, nv₂, ca₂, ct₂, cal₂, cat₂, pr₂)) :
    calcular_combustivel d₁ c₁ p₁ n₁ = calcular_combustivel d₂ c₂ p₂ n₂ ∧
    calcular_custos_completos dest₁ nd₁ nv₁ ca₁ ct₁ cal₁ cat₁ pr₁ =
      calcular_custos_completos dest₂ nd₂ nv₂ ca₂ ct₂ cal₂ cat₂ pr₂ := by
  simp only [Prod.mk.injEq] at hfuel htrip
  obtain ⟨rfl, rfl, rfl, rfl⟩ := hfuel
  obtain ⟨rfl, rfl, rfl, rfl, rfl, rfl, rfl, rfl⟩ := htrip
  exact ⟨rfl, rfl⟩

/-- Witness for C8: two calls with identical concrete arguments agree. -/
theorem C8_deterministic_witness :
    calcular_combustivel 500 12 (599 / 100) 2 = calcular_combustivel 500 12 (599 / 100) 2 ∧
    calcular_custos_completos "Paris" 7 2 300 2500 80 500 10 =
      calcular_custos_completos "Paris" 7 2 300 2500 80 500 10 :=
  C8_deterministic 500 12 (599 / 100) 2 500 12 (599 / 100) 2 "Paris" "Paris"
    7 2 300 2500 80 500 10 7 2 300 2500 80 500 10 rfl rfl

/-- C9: for inputs passing validation, the destination reaches the result
only through `str.upper` — the `destino` field is the uppercased input — and
no other field of the result depends on the destination. -/
theorem C9_destino_uppercased (dest₁ dest₂ : String) (nd nv ca ct cal cat pr : ℚ)
    (h1 : 0 < nd) (h2 : 0 < nv) :
    (calcular_custos_completos dest₁ nd nv ca ct cal cat pr).map
        ResultadoViagem.destino = some (pyUpper dest₁) ∧
    (calcular_custos_completos dest₁ nd nv ca ct cal cat pr).map camposSemDestino =
      (calcular_custos_completos dest₂ nd nv ca ct cal cat pr).map camposSemDestino := by
  have hcond : ¬ (nd ≤ 0 ∨ nv ≤ 0) := by
    push_neg
    exact ⟨h1, h2⟩
  constructor
  · unfold calcular_custos_completos
    rw [if_neg hcond]
    rfl
  · unfold calcular_custos_completos
    rw [if_neg hcond, if_neg hcond]
    rfl

/-- Witness for C9 with two different destinations on Scenario B numbers. -/
theorem C9_destino_uppercased_witness :
    (calcular_custos_completos "Paris" 7 2 300 2500 80 500 10).map
        ResultadoViagem.destino = some (pyUpper "Paris") ∧
    (calcular_custos_completos "Paris" 7 2 300 2500 80 500 10).map camposSemDestino =
      (calcular_custos_completos "Tokyo" 7 2 300 2500 80 500 10).map camposSemDestino :=
  C9_destino_uppercased "Paris" "Tokyo" 7 2 300 2500 80 500 10 (by norm_num) (by norm_num)

/-- C10: the UI's inverse transformation (strip "R$ ", delete thousands
dots, decimal comma to dot, `float`) applied to `formatar_moeda v` recovers
exactly v rounded to two decimal places (rounding half to even, as Python's
fixed-point formatting does). -/
theorem C10_parse_formatar_roundtrip (v : ℚ) :
    parse_valor_br (formatar_moeda v) =
      some (((roundHalfEven (100 * v) : ℤ) : ℚ) / 100) :=
  parse_valor_br_formatar_moeda v
